import Mathlib

/-!
Shallow embedding of `src/twitter.py` (module `twitter` of the wriggler
repository): the rate-limit coordinator `check_rate_limit` and the three
fetch operations `user_timeline`, `users_lookup` and `users_show`.

Modelling conventions:
* A header value is abstracted to its parse result: `HV.num n` is a string
  that `int(...)` (or, for the `date` header, `times.parse`/`times.to_unix`)
  turns into the integer `n`; `HV.bad` is a string those parsers reject
  (they raise `ValueError`).  An absent header is `none` (dict access
  raises `KeyError`).
* `check_rate_limit` returns a value recording what the Python function
  did: `noSleep` (remaining above the buffer, returned without sleeping),
  `sleepCall d` (called `time.sleep` with argument `d`; CPython's `sleep`
  raises for a negative argument instead of sleeping), `anomalyBackoff d`
  (the `except KeyError` branch: `log.error` then `sleep(FAILURE_RETRY)`),
  `valueExn` (an uncaught `ValueError` from `int(...)`/`times.parse`
  propagates — only `KeyError` is caught).
* Each fetch operation is driven by a finite script: the list of responses
  successive `req.get` calls would return.  The loop functions return the
  outcome together with the trace of `check_rate_limit` invocations (one
  entry per response on which the coordinator was consulted).
  `outOfScript` means the loop was about to issue a further request when
  the script ran out; `fatal` is the `log.critical` + `raise SystemExit()`
  path after `MAX_RETRY` is exhausted; `pyexn` is an uncaught Python
  exception escaping the operation.
-/

def RESET_BUFFER : Int := 60

def RATE_LIMIT_BUFFER : Int := 5

def FAILURE_RETRY : Int := 60

def MAX_RETRY : Nat := 24 * 60

/-- Parse result of a header string: `num n` when the relevant parser
yields the integer `n`, `bad` when it raises `ValueError`. -/
inductive HV where
  | num (n : Int)
  | bad
  deriving DecidableEq, Repr

/-- The three headers `check_rate_limit` reads:
`x-rate-limit-remaining`, `date` (already converted to unix seconds by
`times.parse`/`times.to_unix` when well-formed), `x-rate-limit-reset`. -/
structure Headers where
  remaining : Option HV
  date : Option HV
  reset : Option HV
  deriving DecidableEq, Repr

/-- What a call to `check_rate_limit` did (see module docstring). -/
inductive RLResult where
  | noSleep
  | sleepCall (d : Int)
  | anomalyBackoff (d : Int)
  | valueExn
  deriving DecidableEq, Repr

/-- `check_rate_limit(r)` from `src/twitter.py`, lines 22–49, as a function
of the response headers (the only part of the response it reads). -/
def check_rate_limit (h : Headers) : RLResult :=
  match h.remaining with
  | none => RLResult.anomalyBackoff FAILURE_RETRY
  | some HV.bad => RLResult.valueExn
  | some (HV.num remain) =>
    if remain ≤ RATE_LIMIT_BUFFER then
      match h.date with
      | none => RLResult.anomalyBackoff FAILURE_RETRY
      | some HV.bad => RLResult.valueExn
      | some (HV.num now) =>
        match h.reset with
        | none => RLResult.anomalyBackoff FAILURE_RETRY
        | some HV.bad => RLResult.valueExn
        | some (HV.num reset) => RLResult.sleepCall (reset - now + RESET_BUFFER)
    else RLResult.noSleep

/-- Whether the recorded behaviour lets a Python exception escape
`check_rate_limit`: an uncaught `ValueError` from parsing, or
`time.sleep` invoked with a negative argument (which raises). -/
def rlRaises : RLResult → Bool
  | RLResult.valueExn => true
  | RLResult.sleepCall d => decide (d < 0)
  | _ => false

/-- A tweet as the timeline loop sees it: its `"id"` field plus an opaque
stand-in for the rest of the JSON object. -/
structure Tweet where
  id : Int
  data : Nat
  deriving DecidableEq, Repr

/-- A response to the `user_timeline` GET: status code, headers, and the
parse of `r.json()` as a list of tweets. -/
structure TLResponse where
  status_code : Nat
  headers : Headers
  body : List Tweet
  deriving DecidableEq, Repr

/-- The body of the `for tweet in r.json():` loop (lines 82–85): append
each tweet whose id is not yet in `ids`, recording the id.  The Python
`set` is modelled as a duplicate-free list in insertion order. -/
def addTweets : List Tweet → List Tweet → List Int → List Tweet × List Int
  | [], tweets, ids => (tweets, ids)
  | t :: rest, tweets, ids =>
    if t.id ∈ ids then addTweets rest tweets ids
    else addTweets rest (tweets ++ [t]) (ids ++ [t.id])

/-- The id component of `addTweets` on its own. -/
def addIds : List Tweet → List Int → List Int
  | [], ids => ids
  | t :: rest, ids =>
    if t.id ∈ ids then addIds rest ids else addIds rest (ids ++ [t.id])

/-- `min(ids)` on the modelled id set. -/
def listMin : List Int → Option Int
  | [] => none
  | x :: xs => some (xs.foldl min x)

/-- First-seen-order duplicate suppression over a flat record sequence:
the accumulation the spec describes, started from the empty state. -/
def firstSeen (l : List Tweet) : List Tweet :=
  (addTweets l [] []).1

/-- Concatenation of the bodies of a sequence of pages. -/
def catBodies : List (List Tweet) → List Tweet
  | [] => []
  | b :: rest => b ++ catBodies rest

/-- Fold the per-page accumulation over a sequence of page bodies. -/
def runPages : List (List Tweet) → List Tweet × List Int → List Tweet × List Int
  | [], st => st
  | b :: rest, st => runPages rest (addTweets b st.1 st.2)

/-- Every page in the sequence contributes at least one id not seen
before it (the "non-empty new-record set" condition). -/
def pagesProgressB : List (List Tweet) → List Int → Bool
  | [], _ => true
  | b :: rest, ids =>
    decide (∃ t ∈ b, t.id ∉ ids) && pagesProgressB rest (addIds b ids)

/-- Minimum id occurring in a page body. -/
def minId (b : List Tweet) : Option Int :=
  listMin (b.map Tweet.id)

/-- The minimum ids of successive pages are strictly decreasing. -/
def minDecB : List (List Tweet) → Bool
  | [] => true
  | [_] => true
  | a :: b :: rest =>
    (match minId a, minId b with
     | some ma, some mb => decide (mb < ma)
     | _, _ => true) && minDecB (b :: rest)

/-- Outcome of a `user_timeline` run against a finite response script. -/
inductive TLOutcome where
  | result (tweets : List Tweet)
  | fatal
  | pyexn
  | outOfScript
  deriving DecidableEq, Repr

/-- Prepend a coordinator-call record to the trace of a loop result. -/
def consTrace {α : Type} (c : RLResult) (o : α × List RLResult) : α × List RLResult :=
  (o.1, c :: o.2)

/-- The `while tries < MAX_RETRY` loop of `user_timeline`
(`src/twitter.py` lines 77–121).  State: the response script, `tweets`,
`ids`, `tcount`, `params["max_id"]` (absent initially), `tries`. -/
def tl_loop : List TLResponse → List Tweet → List Int → Nat → Option Int → Nat →
    TLOutcome × List RLResult
  | [], _, _, _, _, tries =>
    if tries < MAX_RETRY then (TLOutcome.outOfScript, []) else (TLOutcome.fatal, [])
  | r :: rest, tweets, ids, tcount, maxId, tries =>
    if tries < MAX_RETRY then
      if r.status_code = 200 then
        if (addTweets r.body tweets ids).2.length = tcount then
          (TLOutcome.result (addTweets r.body tweets ids).1, [])
        else if rlRaises (check_rate_limit r.headers) then
          (TLOutcome.pyexn, [check_rate_limit r.headers])
        else
          consTrace (check_rate_limit r.headers)
            (tl_loop rest (addTweets r.body tweets ids).1 (addTweets r.body tweets ids).2
              (addTweets r.body tweets ids).2.length
              (listMin (addTweets r.body tweets ids).2) 0)
      else if r.status_code = 400 then
        if rlRaises (check_rate_limit r.headers) then
          (TLOutcome.pyexn, [check_rate_limit r.headers])
        else
          consTrace (check_rate_limit r.headers)
            (tl_loop rest tweets ids tcount maxId (tries + 1))
      else if r.status_code = 401 ∨ r.status_code = 403 ∨ r.status_code = 404 then
        if rlRaises (check_rate_limit r.headers) then
          (TLOutcome.pyexn, [check_rate_limit r.headers])
        else (TLOutcome.result tweets, [check_rate_limit r.headers])
      else
        if rlRaises (check_rate_limit r.headers) then
          (TLOutcome.pyexn, [check_rate_limit r.headers])
        else
          consTrace (check_rate_limit r.headers)
            (tl_loop rest tweets ids tcount maxId (tries + 1))
    else (TLOutcome.fatal, [])

/-- `user_timeline(user_id, token)` run against a response script, from
the initial state `tweets = []`, `ids = set()`, `tcount = 0`,
no `max_id` parameter, `tries = 0`. -/
def user_timeline (script : List TLResponse) : TLOutcome × List RLResult :=
  tl_loop script [] [] 0 none 0

/-- A response to the `users_lookup` GET; the body models the parse of
`r.json()` as a list of opaque profile objects. -/
structure LUResponse where
  status_code : Nat
  headers : Headers
  body : List Nat
  deriving DecidableEq, Repr

/-- Outcome of a `users_lookup` run against a finite response script. -/
inductive LUOutcome where
  | result (profiles : List Nat)
  | fatal
  | pyexn
  | outOfScript
  deriving DecidableEq, Repr

/-- The `while tries < MAX_RETRY` loop of `users_lookup`
(`src/twitter.py` lines 146–178). -/
def lu_loop : List LUResponse → Nat → LUOutcome × List RLResult
  | [], tries =>
    if tries < MAX_RETRY then (LUOutcome.outOfScript, []) else (LUOutcome.fatal, [])
  | r :: rest, tries =>
    if tries < MAX_RETRY then
      if r.status_code = 200 then
        if rlRaises (check_rate_limit r.headers) then
          (LUOutcome.pyexn, [check_rate_limit r.headers])
        else (LUOutcome.result r.body, [check_rate_limit r.headers])
      else if r.status_code = 403 ∨ r.status_code = 404 then
        if rlRaises (check_rate_limit r.headers) then
          (LUOutcome.pyexn, [check_rate_limit r.headers])
        else (LUOutcome.result [], [check_rate_limit r.headers])
      else if r.status_code = 400 then
        if rlRaises (check_rate_limit r.headers) then
          (LUOutcome.pyexn, [check_rate_limit r.headers])
        else consTrace (check_rate_limit r.headers) (lu_loop rest (tries + 1))
      else
        if rlRaises (check_rate_limit r.headers) then
          (LUOutcome.pyexn, [check_rate_limit r.headers])
        else consTrace (check_rate_limit r.headers) (lu_loop rest (tries + 1))
    else (LUOutcome.fatal, [])

/-- `users_lookup(user_ids, token)` run against a response script. -/
def users_lookup (script : List LUResponse) : LUOutcome × List RLResult :=
  lu_loop script 0

/-- A response to the `users_show` GET; the body models the parse of
`r.json()` as an opaque JSON value. -/
structure SLResponse where
  status_code : Nat
  headers : Headers
  body : Nat
  deriving DecidableEq, Repr

/-- Outcome of a `users_show` run: the returned pair is
`(status code, body)`. -/
inductive SLOutcome where
  | result (p : Nat × Nat)
  | fatal
  | pyexn
  | outOfScript
  deriving DecidableEq, Repr

/-- The `while tries < MAX_RETRY` loop of `users_show`
(`src/twitter.py` lines 201–231). -/
def sl_loop : List SLResponse → Nat → SLOutcome × List RLResult
  | [], tries =>
    if tries < MAX_RETRY then (SLOutcome.outOfScript, []) else (SLOutcome.fatal, [])
  | r :: rest, tries =>
    if tries < MAX_RETRY then
      if r.status_code = 200 then
        if rlRaises (check_rate_limit r.headers) then
          (SLOutcome.pyexn, [check_rate_limit r.headers])
        else (SLOutcome.result (200, r.body), [check_rate_limit r.headers])
      else if r.status_code = 403 ∨ r.status_code = 404 then
        if rlRaises (check_rate_limit r.headers) then
          (SLOutcome.pyexn, [check_rate_limit r.headers])
        else (SLOutcome.result (r.status_code, r.body), [check_rate_limit r.headers])
      else if r.status_code = 400 then
        if rlRaises (check_rate_limit r.headers) then
          (SLOutcome.pyexn, [check_rate_limit r.headers])
        else consTrace (check_rate_limit r.headers) (sl_loop rest (tries + 1))
      else
        if rlRaises (check_rate_limit r.headers) then
          (SLOutcome.pyexn, [check_rate_limit r.headers])
        else consTrace (check_rate_limit r.headers) (sl_loop rest (tries + 1))
    else (SLOutcome.fatal, [])

/-- `users_show(user_id, token)` run against a response script. -/
def users_show (script : List SLResponse) : SLOutcome × List RLResult :=
  sl_loop script 0

/-- A status on which the `users_lookup` loop keeps retrying: neither the
success return (200) nor the "user doesn't exist" return (403/404). -/
def retryableLU (r : LUResponse) : Prop :=
  r.status_code ≠ 200 ∧ r.status_code ≠ 403 ∧ r.status_code ≠ 404

instance (r : LUResponse) : Decidable (retryableLU r) := by
  unfold retryableLU; infer_instance

/-! ### Helper lemmas about the per-page accumulation -/

theorem addTweets_snd (b : List Tweet) :
    ∀ tweets ids, (addTweets b tweets ids).2 = addIds b ids := by
  induction b with
  | nil => intro tweets ids; rfl
  | cons t rest ih =>
    intro tweets ids
    simp only [addTweets, addIds]
    by_cases h : t.id ∈ ids
    · simp only [if_pos h]; exact ih _ _
    · simp only [if_neg h]; exact ih _ _

theorem addTweets_fst_map (b : List Tweet) :
    ∀ tweets ids, ids = tweets.map Tweet.id →
      (addTweets b tweets ids).2 = ((addTweets b tweets ids).1).map Tweet.id := by
  induction b with
  | nil => intro tweets ids h; exact h
  | cons t rest ih =>
    intro tweets ids h
    simp only [addTweets]
    by_cases hm : t.id ∈ ids
    · simp only [if_pos hm]; exact ih _ _ h
    · simp only [if_neg hm]
      exact ih _ _ (by simp [h])

theorem addIds_sub (b : List Tweet) :
    ∀ ids x, x ∈ ids → x ∈ addIds b ids := by
  induction b with
  | nil => intro ids x hx; exact hx
  | cons t rest ih =>
    intro ids x hx
    simp only [addIds]
    by_cases hm : t.id ∈ ids
    · simp only [if_pos hm]; exact ih _ _ hx
    · simp only [if_neg hm]; exact ih _ _ (by simp [hx])

theorem addIds_mem (b : List Tweet) :
    ∀ ids t, t ∈ b → t.id ∈ addIds b ids := by
  induction b with
  | nil => intro ids t ht; cases ht
  | cons u rest ih =>
    intro ids t ht
    simp only [addIds]
    rcases List.mem_cons.mp ht with h | h
    · subst h
      by_cases hm : t.id ∈ ids
      · simp only [if_pos hm]; exact addIds_sub rest ids t.id hm
      · simp only [if_neg hm]; exact addIds_sub rest _ t.id (by simp)
    · by_cases hm : u.id ∈ ids
      · simp only [if_pos hm]; exact ih _ _ h
      · simp only [if_neg hm]; exact ih _ _ h

theorem addIds_nodup (b : List Tweet) :
    ∀ ids, ids.Nodup → (addIds b ids).Nodup := by
  induction b with
  | nil => intro ids h; exact h
  | cons t rest ih =>
    intro ids h
    simp only [addIds]
    by_cases hm : t.id ∈ ids
    · simp only [if_pos hm]; exact ih _ h
    · simp only [if_neg hm]
      exact ih _ (by simp [List.nodup_append, h, hm])

theorem addTweets_of_subset (b : List Tweet) :
    ∀ tweets ids, (∀ t ∈ b, t.id ∈ ids) → addTweets b tweets ids = (tweets, ids) := by
  induction b with
  | nil => intro tweets ids _; rfl
  | cons t rest ih =>
    intro tweets ids h
    have ht : t.id ∈ ids := h t (by simp)
    simp only [addTweets, if_pos ht]
    exact ih _ _ (fun u hu => h u (by simp [hu]))

theorem addIds_length_le (b : List Tweet) :
    ∀ ids, ids.length ≤ (addIds b ids).length := by
  induction b with
  | nil => intro ids; exact le_refl _
  | cons t rest ih =>
    intro ids
    simp only [addIds]
    by_cases hm : t.id ∈ ids
    · simp only [if_pos hm]; exact ih _
    · simp only [if_neg hm]
      calc ids.length ≤ (ids ++ [t.id]).length := by simp
        _ ≤ _ := ih _

theorem addIds_length_lt (b : List Tweet) :
    ∀ ids, (∃ t ∈ b, t.id ∉ ids) → ids.length < (addIds b ids).length := by
  induction b with
  | nil => intro ids h; rcases h with ⟨t, ht, _⟩; cases ht
  | cons u rest ih =>
    intro ids h
    simp only [addIds]
    by_cases hm : u.id ∈ ids
    · simp only [if_pos hm]
      apply ih
      rcases h with ⟨t, ht, hni⟩
      rcases List.mem_cons.mp ht with rfl | h'
      · exact absurd hm hni
      · exact ⟨t, h', hni⟩
    · simp only [if_neg hm]
      calc ids.length < (ids ++ [u.id]).length := by simp
        _ ≤ _ := addIds_length_le rest _

theorem addTweets_append (a b : List Tweet) :
    ∀ tweets ids, addTweets (a ++ b) tweets ids
      = addTweets b (addTweets a tweets ids).1 (addTweets a tweets ids).2 := by
  induction a with
  | nil => intro tweets ids; rfl
  | cons t rest ih =>
    intro tweets ids
    simp only [List.cons_append, addTweets]
    by_cases hm : t.id ∈ ids
    · simp only [if_pos hm]; exact ih _ _
    · simp only [if_neg hm]; exact ih _ _

theorem addIds_append (a b : List Tweet) :
    ∀ ids, addIds (a ++ b) ids = addIds b (addIds a ids) := by
  induction a with
  | nil => intro ids; rfl
  | cons t rest ih =>
    intro ids
    simp only [List.cons_append, addIds]
    by_cases hm : t.id ∈ ids
    · simp only [if_pos hm]; exact ih _
    · simp only [if_neg hm]; exact ih _

theorem runPages_cat (bs : List (List Tweet)) :
    ∀ tweets ids, runPages bs (tweets, ids) = addTweets (catBodies bs) tweets ids := by
  induction bs with
  | nil => intro tweets ids; rfl
  | cons b rest ih =>
    intro tweets ids
    simp only [runPages, catBodies, addTweets_append]
    exact ih _ _

/-- Master lemma for runs of the timeline loop: from a consistent state,
a block of successful pages that each add at least one new id, followed by
a successful page that adds none, returns the accumulated fold and
consults the coordinator exactly once per progressing page — regardless
of the remainder of the script and of the final page's headers. -/
theorem tl_run (fin_r : TLResponse) (rest : List TLResponse) (pages : List TLResponse) :
    ∀ (tweets : List Tweet) (ids : List Int) (maxId : Option Int) (tries : Nat),
    tries < MAX_RETRY →
    ids = tweets.map Tweet.id →
    (∀ r ∈ pages, r.status_code = 200) →
    (∀ r ∈ pages, rlRaises (check_rate_limit r.headers) = false) →
    pagesProgressB (pages.map TLResponse.body) ids = true →
    fin_r.status_code = 200 →
    (∀ t ∈ fin_r.body, t.id ∈ addIds (catBodies (pages.map TLResponse.body)) ids) →
    tl_loop (pages ++ fin_r :: rest) tweets ids tweets.length maxId tries
      = (TLOutcome.result (runPages (pages.map TLResponse.body) (tweets, ids)).1,
         pages.map (fun r => check_rate_limit r.headers)) := by
  induction pages with
  | nil =>
    intro tweets ids maxId tries htr hinv _ _ _ hf200 hfb
    have hids : ∀ t ∈ fin_r.body, t.id ∈ ids := by
      simpa [catBodies, addIds] using hfb
    have hadd : addTweets fin_r.body tweets ids = (tweets, ids) :=
      addTweets_of_subset _ _ _ hids
    have hlen : ids.length = tweets.length := by simp [hinv]
    rw [List.nil_append]
    simp only [tl_loop, if_pos htr, if_pos hf200, hadd, hlen, if_pos rfl]
    simp [runPages]
  | cons p ps ih =>
    intro tweets ids maxId tries htr hinv h200 hrl hprog hf200 hfb
    have hp200 : p.status_code = 200 := h200 p (by simp)
    have hpr : rlRaises (check_rate_limit p.headers) = false := hrl p (by simp)
    have hprog' := hprog
    simp only [List.map_cons, pagesProgressB, Bool.and_eq_true, decide_eq_true_eq] at hprog'
    obtain ⟨hnew, hrest⟩ := hprog'
    have hsnd : (addTweets p.body tweets ids).2 = addIds p.body ids :=
      addTweets_snd _ _ _
    have hmap : (addTweets p.body tweets ids).2
        = ((addTweets p.body tweets ids).1).map Tweet.id :=
      addTweets_fst_map _ _ _ hinv
    have hne : ¬ ((addTweets p.body tweets ids).2.length = tweets.length) := by
      rw [hsnd]
      have hlt : ids.length < (addIds p.body ids).length := addIds_length_lt _ _ hnew
      have hlen : ids.length = tweets.length := by simp [hinv]
      omega
    rw [List.cons_append]
    simp only [tl_loop, if_pos htr, if_pos hp200, if_neg hne]
    rw [if_neg (by simp [hpr])]
    have hlen1 : (addTweets p.body tweets ids).2.length
        = ((addTweets p.body tweets ids).1).length := by
      rw [hmap, List.length_map]
    rw [hlen1]
    rw [ih (addTweets p.body tweets ids).1 (addTweets p.body tweets ids).2
      (listMin (addTweets p.body tweets ids).2) 0 (by decide) hmap
      (fun r hr => h200 r (by simp [hr]))
      (fun r hr => hrl r (by simp [hr]))
      (by rw [hsnd]; exact hrest)
      hf200
      (by
        intro t ht
        have h1 := hfb t ht
        rw [hsnd]
        simpa [catBodies, addIds_append] using h1)]
    simp [consTrace, runPages, Prod.mk.eta]

/-- If no response's headers make the coordinator raise, the timeline loop
never ends in an escaped Python exception, from any state. -/
theorem tl_loop_no_pyexn (s : List TLResponse) :
    ∀ tweets ids tcount maxId tries,
    (∀ r ∈ s, rlRaises (check_rate_limit r.headers) = false) →
    (tl_loop s tweets ids tcount maxId tries).1 ≠ TLOutcome.pyexn := by
  induction s with
  | nil =>
    intro tweets ids tcount maxId tries _
    simp only [tl_loop]
    by_cases h1 : tries < MAX_RETRY
    · rw [if_pos h1]; simp
    · rw [if_neg h1]; simp
  | cons r rest ih =>
    intro tweets ids tcount maxId tries hrl
    have hr : rlRaises (check_rate_limit r.headers) = false := hrl r (by simp)
    have hrest : ∀ x ∈ rest, rlRaises (check_rate_limit x.headers) = false :=
      fun x hx => hrl x (by simp [hx])
    simp only [tl_loop]
    by_cases h1 : tries < MAX_RETRY
    · rw [if_pos h1]
      by_cases h2 : r.status_code = 200
      · rw [if_pos h2]
        by_cases h3 : (addTweets r.body tweets ids).2.length = tcount
        · rw [if_pos h3]; simp
        · rw [if_neg h3, if_neg (by simp [hr])]
          simpa [consTrace] using ih _ _ _ _ _ hrest
      · rw [if_neg h2]
        by_cases h4 : r.status_code = 400
        · rw [if_pos h4, if_neg (by simp [hr])]
          simpa [consTrace] using ih _ _ _ _ _ hrest
        · rw [if_neg h4]
          by_cases h5 : r.status_code = 401 ∨ r.status_code = 403 ∨ r.status_code = 404
          · rw [if_pos h5, if_neg (by simp [hr])]; simp
          · rw [if_neg h5, if_neg (by simp [hr])]
            simpa [consTrace] using ih _ _ _ _ _ hrest
    · rw [if_neg h1]; simp

/-- Same as `tl_loop_no_pyexn` for the batch-lookup loop. -/
theorem lu_loop_no_pyexn (s : List LUResponse) :
    ∀ tries,
    (∀ r ∈ s, rlRaises (check_rate_limit r.headers) = false) →
    (lu_loop s tries).1 ≠ LUOutcome.pyexn := by
  induction s with
  | nil =>
    intro tries _
    simp only [lu_loop]
    by_cases h1 : tries < MAX_RETRY
    · rw [if_pos h1]; simp
    · rw [if_neg h1]; simp
  | cons r rest ih =>
    intro tries hrl
    have hr : rlRaises (check_rate_limit r.headers) = false := hrl r (by simp)
    have hrest : ∀ x ∈ rest, rlRaises (check_rate_limit x.headers) = false :=
      fun x hx => hrl x (by simp [hx])
    simp only [lu_loop]
    by_cases h1 : tries < MAX_RETRY
    · rw [if_pos h1]
      by_cases h2 : r.status_code = 200
      · rw [if_pos h2, if_neg (by simp [hr])]; simp
      · rw [if_neg h2]
        by_cases h3 : r.status_code = 403 ∨ r.status_code = 404
        · rw [if_pos h3, if_neg (by simp [hr])]; simp
        · rw [if_neg h3]
          by_cases h4 : r.status_code = 400
          · rw [if_pos h4, if_neg (by simp [hr])]
            simpa [consTrace] using ih _ hrest
          · rw [if_neg h4, if_neg (by simp [hr])]
            simpa [consTrace] using ih _ hrest
    · rw [if_neg h1]; simp

/-- Same as `tl_loop_no_pyexn` for the single-lookup loop. -/
theorem sl_loop_no_pyexn (s : List SLResponse) :
    ∀ tries,
    (∀ r ∈ s, rlRaises (check_rate_limit r.headers) = false) →
    (sl_loop s tries).1 ≠ SLOutcome.pyexn := by
  induction s with
  | nil =>
    intro tries _
    simp only [sl_loop]
    by_cases h1 : tries < MAX_RETRY
    · rw [if_pos h1]; simp
    · rw [if_neg h1]; simp
  | cons r rest ih =>
    intro tries hrl
    have hr : rlRaises (check_rate_limit r.headers) = false := hrl r (by simp)
    have hrest : ∀ x ∈ rest, rlRaises (check_rate_limit x.headers) = false :=
      fun x hx => hrl x (by simp [hx])
    simp only [sl_loop]
    by_cases h1 : tries < MAX_RETRY
    · rw [if_pos h1]
      by_cases h2 : r.status_code = 200
      · rw [if_pos h2, if_neg (by simp [hr])]; simp
      · rw [if_neg h2]
        by_cases h3 : r.status_code = 403 ∨ r.status_code = 404
        · rw [if_pos h3, if_neg (by simp [hr])]; simp
        · rw [if_neg h3]
          by_cases h4 : r.status_code = 400
          · rw [if_pos h4, if_neg (by simp [hr])]
            simpa [consTrace] using ih _ hrest
          · rw [if_neg h4, if_neg (by simp [hr])]
            simpa [consTrace] using ih _ hrest
    · rw [if_neg h1]; simp

/-- Retry counting in the batch-lookup loop: on a script of retryable
(non-200, non-403/404) responses whose coordinator checks do not raise,
the loop increments `tries` once per response; it goes fatal exactly when
the counter reaches `MAX_RETRY`, and otherwise is still about to issue a
further request when the script ends. -/
theorem lu_run_retry (s : List LUResponse) :
    ∀ tries,
    (∀ r ∈ s, retryableLU r) →
    (∀ r ∈ s, rlRaises (check_rate_limit r.headers) = false) →
    tries + s.length ≤ MAX_RETRY →
    (lu_loop s tries).1
      = if tries + s.length = MAX_RETRY then LUOutcome.fatal
        else LUOutcome.outOfScript := by
  induction s with
  | nil =>
    intro tries _ _ hle
    simp only [lu_loop, List.length_nil, Nat.add_zero] at hle ⊢
    by_cases h : tries = MAX_RETRY
    · rw [if_neg (by omega), if_pos h]
    · rw [if_pos (by omega), if_neg h]
  | cons r rest ih =>
    intro tries hretry hrl hle
    obtain ⟨hn200, hn403, hn404⟩ := hretry r (by simp)
    have hc : rlRaises (check_rate_limit r.headers) = false := hrl r (by simp)
    simp only [List.length_cons] at hle
    have h1 : tries < MAX_RETRY := by omega
    simp only [lu_loop, List.length_cons, if_pos h1, if_neg hn200]
    rw [if_neg (show ¬ (r.status_code = 403 ∨ r.status_code = 404) by tauto)]
    have hrec : (lu_loop rest (tries + 1)).1
        = if tries + 1 + rest.length = MAX_RETRY then LUOutcome.fatal
          else LUOutcome.outOfScript :=
      ih (tries + 1) (fun x hx => hretry x (by simp [hx]))
        (fun x hx => hrl x (by simp [hx])) (by omega)
    have harith : tries + 1 + rest.length = tries + (rest.length + 1) := by omega
    by_cases h4 : r.status_code = 400
    · rw [if_pos h4, if_neg (by simp [hc])]
      simp only [consTrace]
      rw [hrec, harith]
    · rw [if_neg h4, if_neg (by simp [hc])]
      simp only [consTrace]
      rw [hrec, harith]

/-! ### Claim theorems -/

/-- Claim C1 (refuted by the code — code bug): the claim says that when
`resetTime - serverTime + resetBuffer` is negative the sleep duration is
treated as zero.  The code has no clamp: with remaining 3 (at most the
low-water-mark 5), server time 1000 and reset time 0, `check_rate_limit`
passes the negative value -940 straight to `time.sleep`, which raises
instead of sleeping zero seconds. -/
theorem C1_negative_sleep_not_clamped :
    check_rate_limit ⟨some (HV.num 3), some (HV.num 1000), some (HV.num 0)⟩
        = RLResult.sleepCall (-940)
      ∧ rlRaises (RLResult.sleepCall (-940)) = true
      ∧ check_rate_limit ⟨some (HV.num 3), some (HV.num 1000), some (HV.num 0)⟩
          ≠ RLResult.sleepCall 0 :=
  ⟨by decide, by decide, by decide⟩

/-- Claim C5 (confirmed): for every response whose remaining-calls header
parses to at most the low-water-mark and whose reset time is not earlier
than the server time, `check_rate_limit` sleeps exactly
`reset - now + RESET_BUFFER` seconds, a non-negative duration, without
raising. -/
theorem C5_sleep_exact_duration (remain now reset : Int)
    (h1 : remain ≤ RATE_LIMIT_BUFFER) (h2 : now ≤ reset) :
    check_rate_limit ⟨some (HV.num remain), some (HV.num now), some (HV.num reset)⟩
        = RLResult.sleepCall (reset - now + RESET_BUFFER)
      ∧ 0 ≤ reset - now + RESET_BUFFER
      ∧ rlRaises (RLResult.sleepCall (reset - now + RESET_BUFFER)) = false := by
  have hbuf : (RESET_BUFFER : Int) = 60 := rfl
  refine ⟨?_, by omega, ?_⟩
  · simp [check_rate_limit, if_pos h1]
  · simp only [rlRaises, decide_eq_false_iff_not, not_lt]
    omega

/-- Witness for C5: the instance named in the claim — remaining 3, reset
100 seconds after server time — sleeps 100 + 60 = 160 seconds. -/
theorem C5_witness :
    check_rate_limit ⟨some (HV.num 3), some (HV.num 1000), some (HV.num 1100)⟩
      = RLResult.sleepCall 160 := by
  have h := C5_sleep_exact_duration 3 1000 1100 (by decide) (by decide)
  exact h.1.trans (by decide)

/-- Claim C6 (confirmed): whenever a header that `check_rate_limit` needs
is absent — the remaining-calls header, or (once remaining is at most the
low-water-mark) the date or reset header — the `except KeyError` branch
runs: the anomaly is logged (`log.error`) and the coordinator sleeps
exactly `FAILURE_RETRY` = 60 seconds without raising.  This backoff is a
fixed delay inside the coordinator, independent of the retry counter kept
by the calling loop. -/
theorem C6_missing_header_backoff (h : Headers)
    (hmiss : h.remaining = none
      ∨ (∃ n : Int, h.remaining = some (HV.num n) ∧ n ≤ RATE_LIMIT_BUFFER
          ∧ (h.date = none
             ∨ (∃ t : Int, h.date = some (HV.num t) ∧ h.reset = none)))) :
    check_rate_limit h = RLResult.anomalyBackoff FAILURE_RETRY
      ∧ FAILURE_RETRY = 60
      ∧ rlRaises (RLResult.anomalyBackoff FAILURE_RETRY) = false := by
  refine ⟨?_, rfl, rfl⟩
  rcases hmiss with h1 | ⟨n, h1, h2, h3 | ⟨t, hd, hs⟩⟩
  · simp [check_rate_limit, h1]
  · simp [check_rate_limit, h1, h3, if_pos h2]
  · simp [check_rate_limit, h1, hd, hs, if_pos h2]

/-- Witness for C6: all three headers absent. -/
theorem C6_witness :
    check_rate_limit ⟨none, none, none⟩ = RLResult.anomalyBackoff FAILURE_RETRY
      ∧ rlRaises (RLResult.anomalyBackoff FAILURE_RETRY) = false := by
  have h := C6_missing_header_backoff ⟨none, none, none⟩ (Or.inl rfl)
  exact ⟨h.1, h.2.2⟩

/-- Claim C10 (confirmed): when the remaining-calls header parses to an
integer strictly above the low-water-mark, `check_rate_limit` does not
sleep at all, and the result is the same for every value (including
absence) of the date and reset headers — so missing date or reset headers
cause neither a backoff nor an anomaly report in that case. -/
theorem C10_above_watermark_no_sleep (n : Int) (d rs : Option HV)
    (h : RATE_LIMIT_BUFFER < n) :
    check_rate_limit ⟨some (HV.num n), d, rs⟩ = RLResult.noSleep := by
  simp [check_rate_limit, if_neg (not_le.mpr h)]

/-- Witness for C10: remaining 6, no date header, no reset header. -/
theorem C10_witness :
    check_rate_limit ⟨some (HV.num 6), none, none⟩ = RLResult.noSleep :=
  C10_above_watermark_no_sleep 6 none none (by decide)

/-- Claim C2 (confirmed): for every run made of successful (HTTP 200)
pages with strictly decreasing minimum ids, each adding at least one new
id, closed by a successful page adding none, `user_timeline` returns
exactly the first-seen-order accumulation of all records across pages:
its id list is duplicate-free and contains the id of every record of
every page. -/
theorem C2_pagination_union (pages : List TLResponse) (fin_r : TLResponse)
    (h200 : ∀ r ∈ pages, r.status_code = 200)
    (hrl : ∀ r ∈ pages, rlRaises (check_rate_limit r.headers) = false)
    (hprog : pagesProgressB (pages.map TLResponse.body) [] = true)
    (_hmin : minDecB (pages.map TLResponse.body) = true)
    (hf200 : fin_r.status_code = 200)
    (hfin : ∀ t ∈ fin_r.body, t.id ∈ addIds (catBodies (pages.map TLResponse.body)) []) :
    (user_timeline (pages ++ [fin_r])).1
        = TLOutcome.result (firstSeen (catBodies (pages.map TLResponse.body) ++ fin_r.body))
      ∧ ((firstSeen (catBodies (pages.map TLResponse.body) ++ fin_r.body)).map Tweet.id).Nodup
      ∧ (∀ t ∈ catBodies (pages.map TLResponse.body) ++ fin_r.body,
          t.id ∈ (firstSeen (catBodies (pages.map TLResponse.body) ++ fin_r.body)).map Tweet.id) := by
  have hfs : firstSeen (catBodies (pages.map TLResponse.body) ++ fin_r.body)
      = firstSeen (catBodies (pages.map TLResponse.body)) := by
    unfold firstSeen
    rw [addTweets_append]
    rw [addTweets_of_subset fin_r.body _ _ (by rw [addTweets_snd]; exact hfin)]
  have hmap : (firstSeen (catBodies (pages.map TLResponse.body) ++ fin_r.body)).map Tweet.id
      = addIds (catBodies (pages.map TLResponse.body) ++ fin_r.body) [] := by
    unfold firstSeen
    have hm := addTweets_fst_map (catBodies (pages.map TLResponse.body) ++ fin_r.body) [] [] rfl
    rw [← hm, addTweets_snd]
  refine ⟨?_, ?_, ?_⟩
  · have h := tl_run fin_r [] pages [] [] none 0 (by decide) rfl h200 hrl hprog hf200 hfin
    have h2 : (List.length ([] : List Tweet)) = 0 := rfl
    rw [h2] at h
    unfold user_timeline
    rw [h, runPages_cat, hfs]
    simp [firstSeen]
  · rw [hmap]
    exact addIds_nodup _ _ List.nodup_nil
  · intro t ht
    rw [hmap]
    exact addIds_mem _ _ _ ht

/-- Witness for C2: two pages with minimum ids 9 then 5, the second
repeating id 9, closed by a page repeating id 5; the result keeps the
records with ids 10, 9, 5 in first-seen order. -/
theorem C2_witness :
    (user_timeline
        [⟨200, ⟨some (HV.num 100), none, none⟩, [⟨10, 0⟩, ⟨9, 1⟩]⟩,
         ⟨200, ⟨some (HV.num 100), none, none⟩, [⟨9, 9⟩, ⟨5, 2⟩]⟩,
         ⟨200, ⟨some (HV.num 100), none, none⟩, [⟨5, 7⟩]⟩]).1
      = TLOutcome.result [⟨10, 0⟩, ⟨9, 1⟩, ⟨5, 2⟩] := by
  have h := C2_pagination_union
    [⟨200, ⟨some (HV.num 100), none, none⟩, [⟨10, 0⟩, ⟨9, 1⟩]⟩,
     ⟨200, ⟨some (HV.num 100), none, none⟩, [⟨9, 9⟩, ⟨5, 2⟩]⟩]
    ⟨200, ⟨some (HV.num 100), none, none⟩, [⟨5, 7⟩]⟩
    (by decide) (by decide) (by decide) (by decide) (by decide) (by decide)
  exact h.1.trans (by decide)

/-- Claim C3 (confirmed): when a successful page adds zero new ids, the
operation returns the accumulated records at once: the outcome is the
same for every continuation of the script (no further request is issued),
and the coordinator trace contains one entry per earlier progressing page
and none for the terminating page (whose headers are unconstrained) — the
rate-limit coordinator is not consulted in that branch. -/
theorem C3_zero_new_ids_returns_immediately (pages : List TLResponse)
    (dupPage : TLResponse) (rest : List TLResponse)
    (h200 : ∀ r ∈ pages, r.status_code = 200)
    (hrl : ∀ r ∈ pages, rlRaises (check_rate_limit r.headers) = false)
    (hprog : pagesProgressB (pages.map TLResponse.body) [] = true)
    (hd200 : dupPage.status_code = 200)
    (hdup : ∀ t ∈ dupPage.body, t.id ∈ addIds (catBodies (pages.map TLResponse.body)) []) :
    user_timeline (pages ++ dupPage :: rest)
      = (TLOutcome.result (firstSeen (catBodies (pages.map TLResponse.body))),
         pages.map (fun r => check_rate_limit r.headers)) := by
  have h := tl_run dupPage rest pages [] [] none 0 (by decide) rfl h200 hrl hprog hd200 hdup
  have h2 : (List.length ([] : List Tweet)) = 0 := rfl
  rw [h2] at h
  unfold user_timeline
  rw [h, runPages_cat]
  simp [firstSeen]

/-- Witness for C3: one progressing page, then a duplicate-only page with
garbage headers, then a trailing script entry that is never requested. -/
theorem C3_witness :
    user_timeline
        [⟨200, ⟨some (HV.num 100), none, none⟩, [⟨3, 1⟩]⟩,
         ⟨200, ⟨some HV.bad, none, none⟩, [⟨3, 2⟩]⟩,
         ⟨500, ⟨none, none, none⟩, []⟩]
      = (TLOutcome.result [⟨3, 1⟩], [RLResult.noSleep]) := by
  have h := C3_zero_new_ids_returns_immediately
    [⟨200, ⟨some (HV.num 100), none, none⟩, [⟨3, 1⟩]⟩]
    ⟨200, ⟨some HV.bad, none, none⟩, [⟨3, 2⟩]⟩
    [⟨500, ⟨none, none, none⟩, []⟩]
    (by decide) (by decide) (by decide) (by decide) (by decide)
  exact h.trans (by decide)

/-- Claim C7 (confirmed): from any loop state with retries remaining, a
response with status 401, 403 or 404 makes `user_timeline` run the
coordinator once on that response (the trace is exactly that one call)
and return the records accumulated so far — possibly the empty list — as
an ordinary success-shaped result. -/
theorem C7_notfound_returns_accumulated (r : TLResponse) (rest : List TLResponse)
    (tweets : List Tweet) (ids : List Int) (tcount : Nat) (maxId : Option Int)
    (tries : Nat)
    (htr : tries < MAX_RETRY)
    (hstat : r.status_code = 401 ∨ r.status_code = 403 ∨ r.status_code = 404)
    (hrl : rlRaises (check_rate_limit r.headers) = false) :
    tl_loop (r :: rest) tweets ids tcount maxId tries
      = (TLOutcome.result tweets, [check_rate_limit r.headers]) := by
  have hn200 : ¬ r.status_code = 200 := by rcases hstat with h | h | h <;> omega
  have hn400 : ¬ r.status_code = 400 := by rcases hstat with h | h | h <;> omega
  simp only [tl_loop, if_pos htr, if_neg hn200, if_neg hn400, if_pos hstat]
  rw [if_neg (by simp [hrl])]

/-- Witness for C7: a 404 arriving with one record already accumulated
and an empty continuation; the accumulated record is returned and the
coordinator ran once (no sleep, remaining was 100). -/
theorem C7_witness :
    tl_loop [⟨404, ⟨some (HV.num 100), none, none⟩, []⟩] [⟨7, 0⟩] [7] 1 none 0
      = (TLOutcome.result [⟨7, 0⟩], [RLResult.noSleep]) := by
  have h := C7_notfound_returns_accumulated ⟨404, ⟨some (HV.num 100), none, none⟩, []⟩
    [] [⟨7, 0⟩] [7] 1 none 0 (by decide) (by decide) (by decide)
  exact h.trans (by decide)

/-- Claim C4 (counterexample to the claim as stated): a sequence of
`MAX_RETRY` consecutive non-200 responses need not end in the fatal
path — 403 is non-200, yet on the very first 403 `users_lookup` returns
the empty list as a normal result, so 1440 consecutive 403 responses do
not trigger termination. -/
theorem C4_counterexample :
    (users_lookup (List.replicate MAX_RETRY
        ⟨403, ⟨some (HV.num 100), none, none⟩, []⟩)).1 = LUOutcome.result []
      ∧ LUOutcome.result ([] : List Nat) ≠ LUOutcome.fatal := by
  constructor
  · rw [show MAX_RETRY = 1439 + 1 from rfl, List.replicate_succ]
    rfl
  · decide

/-- Claim C4 as amended (proved): restrict "non-200" to the statuses the
batch lookup actually retries (neither 200 nor 403/404).  On a script of
such responses whose coordinator checks do not raise, `users_lookup` is
fatal exactly when the count of consecutive retryable responses reaches
`MAX_RETRY` = 1440; with 1439 of them it is still about to issue the next
request rather than terminating. -/
theorem C4_retry_exhaustion_boundary (s : List LUResponse)
    (hretry : ∀ r ∈ s, retryableLU r)
    (hrl : ∀ r ∈ s, rlRaises (check_rate_limit r.headers) = false)
    (hlen : s.length ≤ MAX_RETRY) :
    (users_lookup s).1
      = if s.length = MAX_RETRY then LUOutcome.fatal else LUOutcome.outOfScript := by
  unfold users_lookup
  have h := lu_run_retry s 0 hretry hrl (by omega)
  simpa using h

/-- Witness for C4 (amended): 1440 consecutive 400 responses end in the
fatal termination path. -/
theorem C4_witness :
    (users_lookup (List.replicate MAX_RETRY
        ⟨400, ⟨some (HV.num 100), none, none⟩, []⟩)).1 = LUOutcome.fatal := by
  have h := C4_retry_exhaustion_boundary
    (List.replicate MAX_RETRY ⟨400, ⟨some (HV.num 100), none, none⟩, []⟩)
    (by intro r hr; rw [List.eq_of_mem_replicate hr]; decide)
    (by intro r hr; rw [List.eq_of_mem_replicate hr]; decide)
    (by simp)
  simpa using h

/-- Claim C8 (confirmed): from any state with retries remaining and a
non-raising coordinator check, `users_show` on a 200 response returns the
pair of the literal status 200 and the parsed body; on a 403 or 404 it
returns the pair of that status code and the body of the error payload;
on any other status (400 included) the outcome is exactly that of the
remaining script with the retry counter incremented — the response is
never surfaced to the caller. -/
theorem C8_users_show_status_passthrough (r : SLResponse) (rest : List SLResponse)
    (tries : Nat)
    (htr : tries < MAX_RETRY)
    (hrl : rlRaises (check_rate_limit r.headers) = false) :
    (r.status_code = 200 →
        sl_loop (r :: rest) tries
          = (SLOutcome.result (200, r.body), [check_rate_limit r.headers]))
      ∧ ((r.status_code = 403 ∨ r.status_code = 404) →
        sl_loop (r :: rest) tries
          = (SLOutcome.result (r.status_code, r.body), [check_rate_limit r.headers]))
      ∧ (r.status_code ≠ 200 → r.status_code ≠ 403 → r.status_code ≠ 404 →
        sl_loop (r :: rest) tries
          = consTrace (check_rate_limit r.headers) (sl_loop rest (tries + 1))) := by
  refine ⟨?_, ?_, ?_⟩
  · intro h200
    simp only [sl_loop, if_pos htr, if_pos h200]
    rw [if_neg (by simp [hrl])]
  · intro hst
    have hn200 : ¬ r.status_code = 200 := by rcases hst with h | h <;> omega
    simp only [sl_loop, if_pos htr, if_neg hn200, if_pos hst]
    rw [if_neg (by simp [hrl])]
  · intro h1 h2 h3
    have hor : ¬ (r.status_code = 403 ∨ r.status_code = 404) := by tauto
    simp only [sl_loop, if_pos htr, if_neg h1, if_neg hor]
    by_cases h4 : r.status_code = 400
    · rw [if_pos h4, if_neg (by simp [hrl])]
    · rw [if_neg h4, if_neg (by simp [hrl])]

/-- Witness for C8: a 200 returns `(200, body)`, a 403 returns
`(403, errorBody)`, and a 500 is retried transparently, the caller seeing
only the following 200. -/
theorem C8_witness :
    sl_loop [⟨200, ⟨some (HV.num 100), none, none⟩, 42⟩] 0
        = (SLOutcome.result (200, 42), [RLResult.noSleep])
      ∧ sl_loop [⟨403, ⟨some (HV.num 100), none, none⟩, 7⟩] 0
        = (SLOutcome.result (403, 7), [RLResult.noSleep])
      ∧ sl_loop [⟨500, ⟨some (HV.num 100), none, none⟩, 9⟩,
                 ⟨200, ⟨some (HV.num 100), none, none⟩, 42⟩] 0
        = (SLOutcome.result (200, 42), [RLResult.noSleep, RLResult.noSleep]) := by
  refine ⟨?_, ?_, ?_⟩
  · exact ((C8_users_show_status_passthrough ⟨200, ⟨some (HV.num 100), none, none⟩, 42⟩
      [] 0 (by decide) (by decide)).1 rfl).trans (by decide)
  · exact ((C8_users_show_status_passthrough ⟨403, ⟨some (HV.num 100), none, none⟩, 7⟩
      [] 0 (by decide) (by decide)).2.1 (Or.inl rfl)).trans (by decide)
  · exact ((C8_users_show_status_passthrough ⟨500, ⟨some (HV.num 100), none, none⟩, 9⟩
      [⟨200, ⟨some (HV.num 100), none, none⟩, 42⟩] 0 (by decide) (by decide)).2.2
      (by decide) (by decide) (by decide)).trans (by decide)

/-- Claim C9 (counterexample to the claim as stated): a malformed
rate-limit header value is not folded into the retry loop — on a 400
response whose remaining-calls header does not parse as an integer,
`int(...)` raises `ValueError`, which the `except KeyError` handler does
not catch, so an exception other than the terminal retry-exhaustion
`SystemExit` escapes `user_timeline`. -/
theorem C9_counterexample :
    (user_timeline [⟨400, ⟨some HV.bad, none, none⟩, []⟩]).1 = TLOutcome.pyexn
      ∧ TLOutcome.pyexn ≠ TLOutcome.fatal :=
  ⟨rfl, by decide⟩

/-- Claim C9 as amended (proved): for every sequence of responses (any
status codes) whose rate-limit header values, where present, are
well-formed enough that no coordinator call raises (no `ValueError` from
parsing and no negative argument to `sleep`), no exception escapes
`user_timeline`, `users_lookup` or `users_show`: every outcome other than
the terminal retry-exhaustion escalation is an ordinary return. -/
theorem C9_no_exception_escape (sT : List TLResponse) (sL : List LUResponse)
    (sS : List SLResponse)
    (hT : ∀ r ∈ sT, rlRaises (check_rate_limit r.headers) = false)
    (hL : ∀ r ∈ sL, rlRaises (check_rate_limit r.headers) = false)
    (hS : ∀ r ∈ sS, rlRaises (check_rate_limit r.headers) = false) :
    (user_timeline sT).1 ≠ TLOutcome.pyexn
      ∧ (users_lookup sL).1 ≠ LUOutcome.pyexn
      ∧ (users_show sS).1 ≠ SLOutcome.pyexn :=
  ⟨tl_loop_no_pyexn sT [] [] 0 none 0 hT,
   lu_loop_no_pyexn sL 0 hL,
   sl_loop_no_pyexn sS 0 hS⟩

/-- Witness for C9 (amended): three small scripts with present-or-absent
but never malformed headers; none of the three operations ends in an
escaped exception. -/
theorem C9_witness :
    (user_timeline [⟨200, ⟨some (HV.num 100), none, none⟩, []⟩]).1 ≠ TLOutcome.pyexn
      ∧ (users_lookup [⟨404, ⟨none, none, none⟩, []⟩]).1 ≠ LUOutcome.pyexn
      ∧ (users_show [⟨500, ⟨some (HV.num 0), some (HV.num 5), some (HV.num 10)⟩, 1⟩]).1
          ≠ SLOutcome.pyexn :=
  C9_no_exception_escape _ _ _ (by decide) (by decide) (by decide)
